import Mathlib

/-!
Shallow embedding of the picsum-rs client library (crate root `src/lib.rs`,
which declares only `pub mod api;`, so `src/api.rs` is the compiled code;
the `src/endpoints/*` files are an orphaned earlier copy that is not part of
the module tree of the crate).

The embedding models: the `FileType` and `ImageSettings` data model with
query-parameter generation, the `RequestError` taxonomy, the client
builder with its base URL, the URL/query construction of the four
operations, and the response-handling pipeline of each operation over an
explicit model of an HTTP exchange outcome.
-/

namespace Picsum

/-- Rust `FileType` from `src/api.rs`: closed enumeration of output formats. -/
inductive FileType where
  | Jpeg
  | Webp
deriving DecidableEq, Repr

/-- Rust `FileType::as_string` from `src/api.rs`. -/
def FileType.as_string : FileType → String
  | .Jpeg => "jpg"
  | .Webp => "webp"

/-- Rust `RequestError` from `src/api.rs`: the four error kinds, each carrying a
message string. -/
inductive RequestError where
  | InvalidRequest (msg : String)
  | InvalidResponse (msg : String)
  | ServerError (msg : String)
  | UnexpectedError (msg : String)
deriving DecidableEq, Repr

/-- Discriminator for the `InvalidResponse` variant. -/
def RequestError.isInvalidResponse : RequestError → Bool
  | .InvalidResponse _ => true
  | _ => false

/-- Rust `Image` from `src/api.rs`: id from the `picsum-id` header, raw body bytes
(bytes modelled as naturals below 256). -/
structure Image where
  id : String
  data : List Nat
deriving DecidableEq, Repr

/-- Rust `ImageSettings` from `src/api.rs`: the request configuration.
`width`/`height` are `u16` and `blur` is `u8` in the source; they are
modelled as `Nat` (only decimal formatting and `min` are applied to them,
neither of which can overflow). -/
structure ImageSettings where
  width : Nat
  height : Nat
  grayscale : Bool
  blur : Nat
  file_type : FileType
deriving DecidableEq, Repr

/-- Rust `bool::then_some`: `some a` when the flag is true, else `none`. -/
def Bool.then_some {α : Type} (b : Bool) (a : α) : Option α :=
  if b then some a else none

/-- Rust `ImageSettings::get_blur_value`: `min(10, self.blur)`. -/
def ImageSettings.get_blur_value (s : ImageSettings) : Nat :=
  min 10 s.blur

/-- Rust `ImageSettings::has_blur`: `self.blur > 0` on the raw stored value. -/
def ImageSettings.has_blur (s : ImageSettings) : Bool :=
  decide (s.blur > 0)

/-- Rust `ImageSettings::is_grayscale`. -/
def ImageSettings.is_grayscale (s : ImageSettings) : Bool :=
  s.grayscale

/-- Rust `ImageSettings::generate_query_params`: the optional `grayscale` and
`blur` pairs, keeping only those actually present. -/
def ImageSettings.generate_query_params (s : ImageSettings) : List (String × String) :=
  ([ Bool.then_some s.is_grayscale ("grayscale", "true"),
     Bool.then_some s.has_blur ("blur", toString s.get_blur_value) ]).filterMap id

/-- Rust `impl Default for ImageSettings` from `src/api.rs`. -/
def ImageSettings.default : ImageSettings :=
  { width := 400, height := 400, grayscale := false, blur := 0, file_type := .Jpeg }

/-- Rust `ImageDetails` from `src/api.rs`: all six fields mandatory, none
optional. `width`/`height` are `u16` in the source, modelled as `Nat` with
the range check applied at decode time. -/
structure ImageDetails where
  id : String
  author : String
  width : Nat
  height : Nat
  url : String
  download_url : String
deriving DecidableEq, Repr

/-- A JSON value, for modelling the body handed to the deserializer. -/
inductive Json where
  | null
  | bool (b : Bool)
  | num (n : Int)
  | str (s : String)
  | arr (elems : List Json)
  | obj (fields : List (String × Json))

/-- Decode a JSON value as a string field, as the serde derive does. -/
def Json.asString : Json → Except String String
  | .str s => .ok s
  | _ => .error "invalid type: expected a string"

/-- Decode a JSON value as a `u16` field: an integer in `0..65536`. -/
def Json.asU16 : Json → Except String Nat
  | .num n =>
      if 0 ≤ n ∧ n < 65536 then .ok n.toNat
      else .error "invalid value: integer out of range of u16"
  | _ => .error "invalid type: expected an integer"

/-- Look up a required object field; absence is a decode failure, exactly as
for a serde-derived structure with no optional fields. -/
def Json.getRequired (fields : List (String × Json)) (name : String) : Except String Json :=
  match fields.lookup name with
  | some v => .ok v
  | none => .error ("missing field `" ++ name ++ "`")

/-- Deserialization of `ImageDetails`, following the semantics of the
derived `Deserialize` in `src/api.rs`: a JSON object with all six fields
present and well-typed; anything else is a decode failure. -/
def decodeImageDetails : Json → Except String ImageDetails
  | .obj fields => do
      let id ← (← Json.getRequired fields "id").asString
      let author ← (← Json.getRequired fields "author").asString
      let width ← (← Json.getRequired fields "width").asU16
      let height ← (← Json.getRequired fields "height").asU16
      let url ← (← Json.getRequired fields "url").asString
      let download_url ← (← Json.getRequired fields "download_url").asString
      .ok { id, author, width, height, url, download_url }
  | _ => .error "invalid type: expected struct ImageDetails"

/-- Deserialization of `Vec<ImageDetails>`: a JSON array whose elements all
decode as `ImageDetails`. -/
def decodeImageDetailsList : Json → Except String (List ImageDetails)
  | .arr elems => elems.mapM decodeImageDetails
  | _ => .error "invalid type: expected a sequence"

/-- Model of a received HTTP response, as the reqwest library presents it to
the code in `src/api.rs`:
`status` is the numeric status code; `errorText` is the display text of the
error produced by `error_for_status` on a failing status; `headers` maps
header names to raw byte values; `jsonBody` is the outcome of reading the
body and parsing it as JSON (`res.json` fails with the underlying error
text when either step does); `bytesBody` is the outcome of reading the raw
body bytes (`res.bytes`). -/
structure HttpResponse where
  status : Nat
  errorText : String
  headers : List (String × List Nat)
  jsonBody : Except String Json
  bytesBody : Except String (List Nat)

/-- The whole exchange: either a response, or a transport-level failure
(connection/timeout/DNS) carrying the error text of the transport. -/
def HttpOutcome : Type := Except String HttpResponse

/-- reqwest `StatusCode::is_client_error() || is_server_error()`: the
statuses `error_for_status` treats as failures (400–599). -/
def isFailureStatus (code : Nat) : Bool :=
  decide (400 ≤ code) && decide (code ≤ 599)

/-- The error produced by the reqwest function `error_for_status`: it reports
`status() = Some(code)` of the failing response and displays as the
error text of the failing response. -/
structure StatusError where
  status : Option Nat
  text : String

/-- reqwest `Response::error_for_status`: the response itself on a
non-failure status, otherwise an error carrying the status. -/
def error_for_status (r : HttpResponse) : Except StatusError HttpResponse :=
  if isFailureStatus r.status then .error { status := some r.status, text := r.errorText }
  else .ok r

/-- Display of a reqwest `StatusCode`, modelled by its decimal numeral (the
library also appends the canonical reason phrase; the claims only concern
the numeric part). -/
def statusCodeDisplay (code : Nat) : String :=
  toString code

/-- The visible-ASCII check of `HeaderValue::to_str` in the http crate: a
byte passes iff it is in `32..127` or is a horizontal tab. -/
def isVisibleAscii (b : Nat) : Bool :=
  (decide (32 ≤ b) && decide (b < 127)) || decide (b = 9)

/-- Rust `HeaderValue::to_str`: succeeds with the characters of the value iff
every byte is visible ASCII, else fails with the conversion error text used
by the http crate. -/
def headerValueToStr (v : List Nat) : Except String String :=
  if v.all isVisibleAscii then .ok (String.mk (v.map Char.ofNat))
  else .error "failed to convert header to a str"

/-- Response handling of `PicsumClient::get_image_details` in `src/api.rs`:
the match on the exchange outcome, `error_for_status`, JSON decoding into
`ImageDetails`, and the error mapping. -/
def get_image_details_handle (response : HttpOutcome) : Except RequestError ImageDetails :=
  match response with
  | .ok r =>
      match error_for_status r with
      | .ok res =>
          match (do decodeImageDetails (← res.jsonBody) : Except String ImageDetails) with
          | .ok details => .ok details
          | .error err => .error (.InvalidResponse err)
      | .error err =>
          match err.status with
          | some 400 => .error (.InvalidRequest err.text)
          | some 500 => .error (.ServerError err.text)
          | some code => .error (.UnexpectedError (statusCodeDisplay code ++ " " ++ err.text))
          | none => .error (.UnexpectedError err.text)
  | .error err => .error (.UnexpectedError err)

/-- Response handling of `PicsumClient::get_images` in `src/api.rs`: as for
the details endpoint, but decoding a `Vec<ImageDetails>`. -/
def get_images_handle (response : HttpOutcome) : Except RequestError (List ImageDetails) :=
  match response with
  | .ok r =>
      match error_for_status r with
      | .ok res =>
          match (do decodeImageDetailsList (← res.jsonBody) : Except String (List ImageDetails)) with
          | .ok details => .ok details
          | .error err => .error (.InvalidResponse err)
      | .error err =>
          match err.status with
          | some 400 => .error (.InvalidRequest err.text)
          | some 500 => .error (.ServerError err.text)
          | some code => .error (.UnexpectedError (statusCodeDisplay code ++ " " ++ err.text))
          | none => .error (.UnexpectedError err.text)
  | .error err => .error (.UnexpectedError err)

/-- Response handling of `PicsumClient::get_image` in `src/api.rs`: on a
successful status read the required `picsum-id` header, convert it to a
string, and read the body bytes; each failure maps to `UnexpectedError`. -/
def get_image_handle (response : HttpOutcome) : Except RequestError Image :=
  match response with
  | .ok r =>
      match error_for_status r with
      | .ok res =>
          match res.headers.lookup "picsum-id" with
          | none => .error (.UnexpectedError "Couldn\x27t retrieve `picsum-id` header.")
          | some v =>
              match headerValueToStr v with
              | .error e => .error (.UnexpectedError e)
              | .ok id =>
                  match res.bytesBody with
                  | .ok bytes => .ok { id := id, data := bytes }
                  | .error err =>
                      .error (.UnexpectedError ("Couldn\x27t read response body: " ++ err))
      | .error err =>
          match err.status with
          | some 400 => .error (.InvalidRequest err.text)
          | some 500 => .error (.ServerError err.text)
          | some code => .error (.UnexpectedError (statusCodeDisplay code ++ " " ++ err.text))
          | none => .error (.UnexpectedError err.text)
  | .error err => .error (.UnexpectedError err)

/-- Response handling of `PicsumClient::get_random_image` in `src/api.rs`;
textually the same pipeline as `get_image`. -/
def get_random_image_handle (response : HttpOutcome) : Except RequestError Image :=
  match response with
  | .ok r =>
      match error_for_status r with
      | .ok res =>
          match res.headers.lookup "picsum-id" with
          | none => .error (.UnexpectedError "Couldn\x27t retrieve `picsum-id` header.")
          | some v =>
              match headerValueToStr v with
              | .error e => .error (.UnexpectedError e)
              | .ok id =>
                  match res.bytesBody with
                  | .ok bytes => .ok { id := id, data := bytes }
                  | .error err =>
                      .error (.UnexpectedError ("Couldn\x27t read response body: " ++ err))
      | .error err =>
          match err.status with
          | some 400 => .error (.InvalidRequest err.text)
          | some 500 => .error (.ServerError err.text)
          | some code => .error (.UnexpectedError (statusCodeDisplay code ++ " " ++ err.text))
          | none => .error (.UnexpectedError err.text)
  | .error err => .error (.UnexpectedError err)

/-- Rust `BASE_URL` from `src/lib.rs`. -/
def BASE_URL : String := "https://picsum.photos"

/-- Rust `PicsumClient` from `src/lib.rs`, reduced to the state the operations
read: the configured base URL (the transport handle is external). -/
structure PicsumClient where
  base_url : String

/-- Rust `PicsumClientBuilder` from `src/lib.rs` (the transport field is
external and elided). -/
structure PicsumClientBuilder where
  base_url : String

/-- Rust `PicsumClientBuilder::new`: starts from the hard-coded default base
URL. -/
def PicsumClientBuilder.new : PicsumClientBuilder :=
  { base_url := BASE_URL }

/-- Rust `PicsumClientBuilder::base_url`: overrides the base URL. -/
def PicsumClientBuilder.set_base_url (_b : PicsumClientBuilder) (url : String) :
    PicsumClientBuilder :=
  { base_url := url }

/-- Rust `PicsumClientBuilder::build`: the built client carries the base URL
held by the builder. -/
def PicsumClientBuilder.build (b : PicsumClientBuilder) : PicsumClient :=
  { base_url := b.base_url }

/-- Rust `impl Default for PicsumClientInner` from `src/lib.rs`: the default
client uses `BASE_URL`. -/
def PicsumClient.default : PicsumClient :=
  { base_url := BASE_URL }

/-- The request an operation issues: target URL and query-parameter list. -/
structure RequestSpec where
  url : String
  query : List (String × String)
deriving DecidableEq, Repr

/-- URL and query built by `PicsumClient::get_image`:
`{base}/id/{id}/{width}/{height}.{ext}` with the query
parameters. -/
def PicsumClient.get_image_request (c : PicsumClient) (id : String) (s : ImageSettings) :
    RequestSpec :=
  { url := c.base_url ++ "/id/" ++ id ++ "/" ++ toString s.width ++ "/" ++
      toString s.height ++ "." ++ s.file_type.as_string,
    query := s.generate_query_params }

/-- URL and query built by `PicsumClient::get_random_image`:
`{base}/{width}/{height}.{ext}` with the query parameters. -/
def PicsumClient.get_random_image_request (c : PicsumClient) (s : ImageSettings) :
    RequestSpec :=
  { url := c.base_url ++ "/" ++ toString s.width ++ "/" ++
      toString s.height ++ "." ++ s.file_type.as_string,
    query := s.generate_query_params }

/-- URL and query built by `PicsumClient::get_image_details`:
`{base}/id/{id}/info`, no query. -/
def PicsumClient.get_image_details_request (c : PicsumClient) (id : String) : RequestSpec :=
  { url := c.base_url ++ "/id/" ++ id ++ "/info",
    query := [] }

/-- URL and query built by `PicsumClient::get_images`: `{base}/v2/list`
with `page` and `limit` (`limit` is widened to `u16`, which does not change
its decimal form). -/
def PicsumClient.get_images_request (c : PicsumClient) (page : Nat) (limit : Nat) :
    RequestSpec :=
  { url := c.base_url ++ "/v2/list",
    query := [("page", toString page), ("limit", toString limit)] }

/-! Helper lemmas shared by the claim theorems. -/

/-- Closed form of the generated query parameters: the optional `grayscale`
pair followed by the optional `blur` pair. -/
theorem generate_query_params_eq (s : ImageSettings) :
    s.generate_query_params =
      (if s.grayscale then [("grayscale", "true")] else []) ++
      (if 0 < s.blur then [("blur", toString (min 10 s.blur))] else []) := by
  unfold ImageSettings.generate_query_params Bool.then_some ImageSettings.is_grayscale
    ImageSettings.has_blur ImageSettings.get_blur_value
  cases hg : s.grayscale <;> by_cases hb : 0 < s.blur <;>
    simp [hg, hb]

/-- Error assigned to a response with a failing status: 400 becomes
`InvalidRequest`, 500 becomes `ServerError`, anything else becomes
`UnexpectedError` carrying the numeric status and the message. -/
def statusMapped (r : HttpResponse) : RequestError :=
  if r.status = 400 then .InvalidRequest r.errorText
  else if r.status = 500 then .ServerError r.errorText
  else .UnexpectedError (statusCodeDisplay r.status ++ " " ++ r.errorText)

theorem get_image_details_handle_statusFail (r : HttpResponse)
    (h : isFailureStatus r.status = true) :
    get_image_details_handle (.ok r) = .error (statusMapped r) := by
  unfold get_image_details_handle
  simp only [error_for_status, h, if_true]
  by_cases h4 : r.status = 400
  · simp [h4, statusMapped]
  · by_cases h5 : r.status = 500
    · simp [h5, statusMapped]
    · split <;> simp_all [statusMapped]

theorem get_images_handle_statusFail (r : HttpResponse)
    (h : isFailureStatus r.status = true) :
    get_images_handle (.ok r) = .error (statusMapped r) := by
  unfold get_images_handle
  simp only [error_for_status, h, if_true]
  by_cases h4 : r.status = 400
  · simp [h4, statusMapped]
  · by_cases h5 : r.status = 500
    · simp [h5, statusMapped]
    · split <;> simp_all [statusMapped]

theorem get_image_handle_statusFail (r : HttpResponse)
    (h : isFailureStatus r.status = true) :
    get_image_handle (.ok r) = .error (statusMapped r) := by
  unfold get_image_handle
  simp only [error_for_status, h, if_true]
  by_cases h4 : r.status = 400
  · simp [h4, statusMapped]
  · by_cases h5 : r.status = 500
    · simp [h5, statusMapped]
    · split <;> simp_all [statusMapped]

theorem get_random_image_handle_statusFail (r : HttpResponse)
    (h : isFailureStatus r.status = true) :
    get_random_image_handle (.ok r) = .error (statusMapped r) := by
  unfold get_random_image_handle
  simp only [error_for_status, h, if_true]
  by_cases h4 : r.status = 400
  · simp [h4, statusMapped]
  · by_cases h5 : r.status = 500
    · simp [h5, statusMapped]
    · split <;> simp_all [statusMapped]

theorem except_bind_ok {ε α β : Type} {a : Except ε α} {f : α → Except ε β} {b : β}
    (h : a >>= f = .ok b) : ∃ x, a = .ok x ∧ f x = .ok b := by
  cases a with
  | error e => exact Except.noConfusion h
  | ok x => exact ⟨x, rfl, by simpa only [bind, Except.bind] using h⟩

theorem getRequired_isSome {fields : List (String × Json)} {name : String} {j : Json}
    (h : Json.getRequired fields name = .ok j) : (fields.lookup name).isSome = true := by
  unfold Json.getRequired at h
  cases hl : fields.lookup name <;> simp [hl] at h ⊢

/-- Successfully decoding an `ImageDetails` object forces all six required
fields to be present. -/
theorem decodeImageDetails_ok_fields {fields : List (String × Json)} {d : ImageDetails}
    (h : decodeImageDetails (.obj fields) = .ok d) :
    ((fields.lookup "id").isSome && (fields.lookup "author").isSome &&
     (fields.lookup "width").isSome && (fields.lookup "height").isSome &&
     (fields.lookup "url").isSome && (fields.lookup "download_url").isSome) = true := by
  simp only [decodeImageDetails] at h
  obtain ⟨j1, hj1, h⟩ := except_bind_ok h
  obtain ⟨s1, _, h⟩ := except_bind_ok h
  obtain ⟨j2, hj2, h⟩ := except_bind_ok h
  obtain ⟨s2, _, h⟩ := except_bind_ok h
  obtain ⟨j3, hj3, h⟩ := except_bind_ok h
  obtain ⟨n3, _, h⟩ := except_bind_ok h
  obtain ⟨j4, hj4, h⟩ := except_bind_ok h
  obtain ⟨n4, _, h⟩ := except_bind_ok h
  obtain ⟨j5, hj5, h⟩ := except_bind_ok h
  obtain ⟨s5, _, h⟩ := except_bind_ok h
  obtain ⟨j6, hj6, _⟩ := except_bind_ok h
  simp [getRequired_isSome hj1, getRequired_isSome hj2, getRequired_isSome hj3,
    getRequired_isSome hj4, getRequired_isSome hj5, getRequired_isSome hj6]

theorem statusMapped_not_invalidResponse (r : HttpResponse) :
    (statusMapped r).isInvalidResponse = false := by
  by_cases h4 : r.status = 400
  · simp [statusMapped, h4, RequestError.isInvalidResponse]
  · by_cases h5 : r.status = 500 <;>
      simp [statusMapped, h4, h5, RequestError.isInvalidResponse]

/-! Claim theorems. -/

/-- C1: the effective blur is `min(blur, 10)`; the emitted parameters
contain no `blur` key when the stored blur is `0`, `blur=b` when
`1 ≤ b ≤ 10`, and `blur=10` when `b > 10`; the parameter is included
exactly when `has_blur` (raw stored value positive) holds. -/
theorem blur_param_clamped (s : ImageSettings) :
    s.get_blur_value = min s.blur 10 ∧
    s.has_blur = decide (0 < s.blur) ∧
    s.generate_query_params.lookup "blur" =
      (if s.blur = 0 then none
       else if s.blur ≤ 10 then some (toString s.blur)
       else some "10") := by
  refine ⟨Nat.min_comm 10 s.blur, rfl, ?_⟩
  rw [generate_query_params_eq]
  rcases Nat.eq_zero_or_pos s.blur with h0 | hpos
  · cases s.grayscale <;> simp [h0, List.lookup]
  · by_cases hle : s.blur ≤ 10
    · have hmin : min 10 s.blur = s.blur := Nat.min_eq_right hle
      cases s.grayscale <;>
        simp [hpos, Nat.pos_iff_ne_zero.mp hpos, hle, hmin, List.lookup]
    · have hmin : min 10 s.blur = 10 := Nat.min_eq_left (Nat.le_of_lt (Nat.lt_of_not_le hle))
      cases s.grayscale <;>
        simp [hpos, Nat.pos_iff_ne_zero.mp hpos, hle, hmin, List.lookup] <;> decide

/-- C2: the emitted parameters contain no `grayscale` key when the flag is
false, exactly `grayscale=true` when it is true, and every emitted
parameter key is `grayscale` or `blur`. -/
theorem grayscale_param_exact (s : ImageSettings) :
    s.generate_query_params.lookup "grayscale" =
      (if s.grayscale then some "true" else none) ∧
    (s.generate_query_params.all fun p => p.1 == "grayscale" || p.1 == "blur") = true := by
  constructor
  · rw [generate_query_params_eq]
    cases s.grayscale <;> by_cases hb : 0 < s.blur <;> simp [hb, List.lookup]
  · rw [generate_query_params_eq]
    cases s.grayscale <;> by_cases hb : 0 < s.blur <;> simp [hb]

/-- C6: encoding settings with grayscale on and blur 15 yields exactly
`grayscale=true, blur=10`, and re-encoding with the clamped blur value 10
yields the same parameter list. -/
theorem encode_clamp_idempotent (w h : Nat) (ft : FileType) :
    (ImageSettings.mk w h true 15 ft).generate_query_params =
      [("grayscale", "true"), ("blur", "10")] ∧
    (ImageSettings.mk w h true 10 ft).generate_query_params =
      [("grayscale", "true"), ("blur", "10")] := by
  refine ⟨?_, ?_⟩ <;> rw [generate_query_params_eq] <;> simp <;> decide

/-- C3: for every operation, a transport-level failure yields
`UnexpectedError` with the transport message, and a failing status yields
the same mapped error in all four operations: 400 gives `InvalidRequest`,
500 gives `ServerError`, any other failing status gives `UnexpectedError`
carrying the numeric status and message; no status maps to
`InvalidResponse`. -/
theorem error_mapping_total (r : HttpResponse) (tmsg : String)
    (h : isFailureStatus r.status = true) :
    (get_image_details_handle (.error tmsg) = .error (.UnexpectedError tmsg) ∧
     get_images_handle (.error tmsg) = .error (.UnexpectedError tmsg) ∧
     get_image_handle (.error tmsg) = .error (.UnexpectedError tmsg) ∧
     get_random_image_handle (.error tmsg) = .error (.UnexpectedError tmsg)) ∧
    (get_image_details_handle (.ok r) = .error (statusMapped r) ∧
     get_images_handle (.ok r) = .error (statusMapped r) ∧
     get_image_handle (.ok r) = .error (statusMapped r) ∧
     get_random_image_handle (.ok r) = .error (statusMapped r)) ∧
    (r.status = 400 → statusMapped r = .InvalidRequest r.errorText) ∧
    (r.status = 500 → statusMapped r = .ServerError r.errorText) ∧
    (r.status ≠ 400 → r.status ≠ 500 →
      statusMapped r = .UnexpectedError (statusCodeDisplay r.status ++ " " ++ r.errorText)) ∧
    (statusMapped r).isInvalidResponse = false := by
  refine ⟨⟨rfl, rfl, rfl, rfl⟩,
    ⟨get_image_details_handle_statusFail r h, get_images_handle_statusFail r h,
     get_image_handle_statusFail r h, get_random_image_handle_statusFail r h⟩,
    ?_, ?_, ?_, ?_⟩
  · intro h4; simp [statusMapped, h4]
  · intro h5; simp [statusMapped, h5]
  · intro h4 h5; simp [statusMapped, h4, h5]
  · by_cases h4 : r.status = 400
    · simp [statusMapped, h4, RequestError.isInvalidResponse]
    · by_cases h5 : r.status = 500 <;>
        simp [statusMapped, h4, h5, RequestError.isInvalidResponse]

/-- Witness for C3: a concrete 404 response maps to `UnexpectedError`
carrying the status, and a concrete transport failure maps to
`UnexpectedError` with its message. -/
theorem error_mapping_total_witness :
    get_image_details_handle
        (.ok (HttpResponse.mk 404 "Not Found" [] (.error "ej") (.error "eb"))) =
      .error (.UnexpectedError "404 Not Found") ∧
    get_images_handle (.error "connection reset") =
      .error (.UnexpectedError "connection reset") := by
  obtain ⟨⟨_, ht2, _, _⟩, ⟨hs1, _, _, _⟩, _, _, hother, _⟩ :=
    error_mapping_total (HttpResponse.mk 404 "Not Found" [] (.error "ej") (.error "eb"))
      "connection reset" (by decide)
  refine ⟨?_, ht2⟩
  rw [hs1, hother (by decide) (by decide)]
  rfl

/-- C9: the `Default` implementation of `ImageSettings` supplies
width 400, height 400, grayscale false, blur 0 and Jpeg format, so a
settings value exists without caller-supplied dimensions. -/
theorem default_settings_values :
    ImageSettings.default.width = 400 ∧ ImageSettings.default.height = 400 ∧
    ImageSettings.default.grayscale = false ∧ ImageSettings.default.blur = 0 ∧
    ImageSettings.default.file_type = FileType.Jpeg :=
  ⟨rfl, rfl, rfl, rfl, rfl⟩

/-- C4: on a successful image-fetch response lacking the `picsum-id`
header, both image operations return `UnexpectedError` with the
missing-header message, never `InvalidResponse`. -/
theorem missing_header_unexpected (r : HttpResponse)
    (hs : isFailureStatus r.status = false)
    (hh : r.headers.lookup "picsum-id" = none) :
    get_image_handle (.ok r) =
      .error (.UnexpectedError "Couldn\x27t retrieve `picsum-id` header.") ∧
    get_random_image_handle (.ok r) =
      .error (.UnexpectedError "Couldn\x27t retrieve `picsum-id` header.") ∧
    (∀ m, get_image_handle (.ok r) ≠ .error (.InvalidResponse m)) ∧
    (∀ m, get_random_image_handle (.ok r) ≠ .error (.InvalidResponse m)) := by
  have h1 : get_image_handle (.ok r) =
      .error (.UnexpectedError "Couldn\x27t retrieve `picsum-id` header.") := by
    unfold get_image_handle
    simp only [error_for_status, hs, Bool.false_eq_true, if_false, hh]
  have h2 : get_random_image_handle (.ok r) =
      .error (.UnexpectedError "Couldn\x27t retrieve `picsum-id` header.") := by
    unfold get_random_image_handle
    simp only [error_for_status, hs, Bool.false_eq_true, if_false, hh]
  refine ⟨h1, h2, ?_, ?_⟩
  · intro m hcontra; rw [h1] at hcontra; simp at hcontra
  · intro m hcontra; rw [h2] at hcontra; simp at hcontra

/-- Witness for C4 at a concrete headerless 200 response. -/
theorem missing_header_unexpected_witness :
    get_image_handle (.ok (HttpResponse.mk 200 "" [] (.error "j") (.ok []))) =
      .error (.UnexpectedError "Couldn\x27t retrieve `picsum-id` header.") :=
  (missing_header_unexpected (HttpResponse.mk 200 "" [] (.error "j") (.ok []))
    (by decide) rfl).1

/-- C10: on a successful image-fetch response whose `picsum-id` header
value holds a non-visible-ASCII byte, both image operations return
`UnexpectedError` with the conversion error text — never `InvalidResponse`
and never a successful `Image`. -/
theorem malformed_header_unexpected (r : HttpResponse) (v : List Nat)
    (hs : isFailureStatus r.status = false)
    (hh : r.headers.lookup "picsum-id" = some v)
    (hv : v.all isVisibleAscii = false) :
    get_image_handle (.ok r) =
      .error (.UnexpectedError "failed to convert header to a str") ∧
    get_random_image_handle (.ok r) =
      .error (.UnexpectedError "failed to convert header to a str") ∧
    (∀ m, get_image_handle (.ok r) ≠ .error (.InvalidResponse m)) ∧
    (∀ m, get_random_image_handle (.ok r) ≠ .error (.InvalidResponse m)) ∧
    (∀ img, get_image_handle (.ok r) ≠ .ok img) ∧
    (∀ img, get_random_image_handle (.ok r) ≠ .ok img) := by
  have h1 : get_image_handle (.ok r) =
      .error (.UnexpectedError "failed to convert header to a str") := by
    unfold get_image_handle
    simp only [error_for_status, hs, Bool.false_eq_true, if_false, hh,
      headerValueToStr, hv]
  have h2 : get_random_image_handle (.ok r) =
      .error (.UnexpectedError "failed to convert header to a str") := by
    unfold get_random_image_handle
    simp only [error_for_status, hs, Bool.false_eq_true, if_false, hh,
      headerValueToStr, hv]
  refine ⟨h1, h2, ?_, ?_, ?_, ?_⟩ <;> intro x hcontra
  · rw [h1] at hcontra; simp at hcontra
  · rw [h2] at hcontra; simp at hcontra
  · rw [h1] at hcontra; simp at hcontra
  · rw [h2] at hcontra; simp at hcontra

/-- Witness for C10 at a concrete 200 response whose `picsum-id` value is
the single byte 200. -/
theorem malformed_header_unexpected_witness :
    get_image_handle
        (.ok (HttpResponse.mk 200 "" [("picsum-id", [200])] (.error "j") (.ok []))) =
      .error (.UnexpectedError "failed to convert header to a str") :=
  (malformed_header_unexpected
    (HttpResponse.mk 200 "" [("picsum-id", [200])] (.error "j") (.ok []))
    [200] (by decide) rfl (by decide)).1

/-- C5: for the JSON-bearing operations, a post-success decode failure
(malformed JSON or a missing required field of `ImageDetails`) yields
`InvalidResponse` carrying the decode error text; a successful decode
requires all six fields; and `InvalidResponse` arises only from such
post-success decode failures. -/
theorem invalid_response_decode (r : HttpResponse) (e : String)
    (fields : List (String × Json)) :
    (isFailureStatus r.status = false →
      (do decodeImageDetails (← r.jsonBody) : Except String ImageDetails) = .error e →
      get_image_details_handle (.ok r) = .error (.InvalidResponse e)) ∧
    (isFailureStatus r.status = false →
      (do decodeImageDetailsList (← r.jsonBody) : Except String (List ImageDetails)) = .error e →
      get_images_handle (.ok r) = .error (.InvalidResponse e)) ∧
    (r.jsonBody = .error e →
      (do decodeImageDetails (← r.jsonBody) : Except String ImageDetails) = .error e) ∧
    (fields.lookup "id" = none →
      decodeImageDetails (.obj fields) = .error "missing field `id`") ∧
    (∀ d, decodeImageDetails (.obj fields) = .ok d →
      ((fields.lookup "id").isSome && (fields.lookup "author").isSome &&
       (fields.lookup "width").isSome && (fields.lookup "height").isSome &&
       (fields.lookup "url").isSome && (fields.lookup "download_url").isSome) = true) ∧
    (∀ (resp : HttpOutcome) (m : String),
      get_image_details_handle resp = .error (.InvalidResponse m) →
      ∃ rr, resp = .ok rr ∧ isFailureStatus rr.status = false ∧
        (do decodeImageDetails (← rr.jsonBody) : Except String ImageDetails) = .error m) ∧
    (∀ (resp : HttpOutcome) (m : String),
      get_images_handle resp = .error (.InvalidResponse m) →
      ∃ rr, resp = .ok rr ∧ isFailureStatus rr.status = false ∧
        (do decodeImageDetailsList (← rr.jsonBody) : Except String (List ImageDetails)) =
          .error m) := by
  refine ⟨?_, ?_, ?_, ?_, fun d h => decodeImageDetails_ok_fields h, ?_, ?_⟩
  · intro hf hd
    unfold get_image_details_handle
    simp only [error_for_status, hf, Bool.false_eq_true, if_false]
    rw [hd]
  · intro hf hd
    unfold get_images_handle
    simp only [error_for_status, hf, Bool.false_eq_true, if_false]
    rw [hd]
  · intro hj
    rw [hj]
    rfl
  · intro hid
    simp only [decodeImageDetails, Json.getRequired, hid]
    rfl
  · intro resp m hres
    cases resp with
    | error t =>
        exact absurd hres (by simp [get_image_details_handle])
    | ok rr =>
        by_cases hf : isFailureStatus rr.status
        · rw [get_image_details_handle_statusFail rr hf] at hres
          have := statusMapped_not_invalidResponse rr
          rw [show statusMapped rr = RequestError.InvalidResponse m from by
            exact Except.error.inj hres] at this
          simp [RequestError.isInvalidResponse] at this
        · refine ⟨rr, rfl, by simpa using hf, ?_⟩
          unfold get_image_details_handle at hres
          simp only [error_for_status, eq_false_of_ne_true hf, Bool.false_eq_true,
            if_false] at hres
          cases hd : (do decodeImageDetails (← rr.jsonBody) : Except String ImageDetails) with
          | ok d => rw [hd] at hres; exact Except.noConfusion hres
          | error t =>
              rw [hd] at hres
              simp only [Except.error.injEq, RequestError.InvalidResponse.injEq] at hres
              rw [hres]
  · intro resp m hres
    cases resp with
    | error t =>
        exact absurd hres (by simp [get_images_handle])
    | ok rr =>
        by_cases hf : isFailureStatus rr.status
        · rw [get_images_handle_statusFail rr hf] at hres
          have := statusMapped_not_invalidResponse rr
          rw [show statusMapped rr = RequestError.InvalidResponse m from by
            exact Except.error.inj hres] at this
          simp [RequestError.isInvalidResponse] at this
        · refine ⟨rr, rfl, by simpa using hf, ?_⟩
          unfold get_images_handle at hres
          simp only [error_for_status, eq_false_of_ne_true hf, Bool.false_eq_true,
            if_false] at hres
          cases hd : (do decodeImageDetailsList (← rr.jsonBody) :
              Except String (List ImageDetails)) with
          | ok d => rw [hd] at hres; exact Except.noConfusion hres
          | error t =>
              rw [hd] at hres
              simp only [Except.error.injEq, RequestError.InvalidResponse.injEq] at hres
              rw [hres]

/-- Witness for C5: a concrete 200 response whose body fails to parse as
JSON yields `InvalidResponse` with the parse error text. -/
theorem invalid_response_decode_witness :
    get_image_details_handle
        (.ok (HttpResponse.mk 200 "" [] (.error "bad json") (.error "b"))) =
      .error (.InvalidResponse "bad json") :=
  ((invalid_response_decode (HttpResponse.mk 200 "" [] (.error "bad json") (.error "b"))
    "bad json" []).1 (by decide) rfl)

/-- C7: each operation builds exactly the documented request path —
fetch-by-id `/id/{id}/{width}/{height}.{ext}`, random fetch
`/{width}/{height}.{ext}`, details-by-id `/id/{id}/info` with no query,
list `/v2/list` with `page` and `limit` — and the extension is `jpg` for
Jpeg and `webp` for Webp. -/
theorem request_paths (c : PicsumClient) (id : String) (s : ImageSettings)
    (page limit : Nat) :
    (c.get_image_request id s).url =
      c.base_url ++ "/id/" ++ id ++ "/" ++ toString s.width ++ "/" ++
        toString s.height ++ "." ++ s.file_type.as_string ∧
    (c.get_image_request id s).query = s.generate_query_params ∧
    (c.get_random_image_request s).url =
      c.base_url ++ "/" ++ toString s.width ++ "/" ++ toString s.height ++ "." ++
        s.file_type.as_string ∧
    (c.get_random_image_request s).query = s.generate_query_params ∧
    (c.get_image_details_request id).url = c.base_url ++ "/id/" ++ id ++ "/info" ∧
    (c.get_image_details_request id).query = [] ∧
    (c.get_images_request page limit).url = c.base_url ++ "/v2/list" ∧
    (c.get_images_request page limit).query =
      [("page", toString page), ("limit", toString limit)] ∧
    FileType.as_string .Jpeg = "jpg" ∧ FileType.as_string .Webp = "webp" :=
  ⟨rfl, rfl, rfl, rfl, rfl, rfl, rfl, rfl, rfl, rfl⟩

/-- C8: the default base URL is `https://picsum.photos`, it can be
overridden at construction time, and every operation of a client built
with base URL `B` targets a URL with prefix `B`. -/
theorem base_url_override (B id : String) (s : ImageSettings) (page limit : Nat) :
    BASE_URL = "https://picsum.photos" ∧
    PicsumClient.default.base_url = BASE_URL ∧
    PicsumClientBuilder.new.build.base_url = BASE_URL ∧
    (PicsumClientBuilder.new.set_base_url B).build.base_url = B ∧
    (∃ rest,
      ((PicsumClientBuilder.new.set_base_url B).build.get_image_request id s).url =
        B ++ rest) ∧
    (∃ rest,
      ((PicsumClientBuilder.new.set_base_url B).build.get_random_image_request s).url =
        B ++ rest) ∧
    (∃ rest,
      ((PicsumClientBuilder.new.set_base_url B).build.get_image_details_request id).url =
        B ++ rest) ∧
    (∃ rest,
      ((PicsumClientBuilder.new.set_base_url B).build.get_images_request page limit).url =
        B ++ rest) := by
  refine ⟨rfl, rfl, rfl, rfl,
    ⟨"/id/" ++ id ++ "/" ++ toString s.width ++ "/" ++ toString s.height ++ "." ++
      s.file_type.as_string, ?_⟩,
    ⟨"/" ++ toString s.width ++ "/" ++ toString s.height ++ "." ++
      s.file_type.as_string, ?_⟩,
    ⟨"/id/" ++ id ++ "/info", ?_⟩,
    ⟨"/v2/list", ?_⟩⟩ <;>
    simp [PicsumClient.get_image_request, PicsumClient.get_random_image_request,
      PicsumClient.get_image_details_request, PicsumClient.get_images_request,
      PicsumClientBuilder.new, PicsumClientBuilder.set_base_url,
      PicsumClientBuilder.build, String.append_assoc]

end Picsum
